import Mathlib

/-!
Shallow embedding of the `mactest` crate (src/lib.rs) in Lean 4.

Modelling conventions:
* Rust `f64` duration values are embedded as rationals (ℚ); the only
  operations the code performs on them are the literal `0.0`, the
  comparisons `> 0.0` and `!= 0.0`, and storing a measured elapsed time,
  all of which the rational order models exactly on the values that occur.
* `SystemTime` is embedded as an abstract tick count (`Nat`).
* `Arc<Mutex<f64>>` and `Arc<AtomicBool>` shared cells are embedded as
  plain fields: the embedding tracks the value held by the cell.
* Filesystem effects (`expanduser`, `fs::canonicalize`, `Path::exists`)
  are parameters gathered in a `FileSys` record, so every function of the
  crate becomes a pure function of the filesystem model and its inputs.
* A Rust panic (an `unwrap` on `None`/`Err`) is embedded as the `none`
  value of an outer `Option`: a `none` result means the code panics
  instead of returning through its `Result` channel.
* `usize::MAX` is `2 ^ 64 - 1`.
-/

/-- Tuple list with file path and error message (`ErrorsType` in lib.rs). -/
abbrev ErrorsType : Type := List (String × String)

/-- The `ReturnType` enum of lib.rs: which entry shape a scan produces. -/
inductive ReturnType where
  | Base
  | Ext
deriving DecidableEq, Repr

/-- The `Options` struct of lib.rs (PathBuf embedded as String). -/
structure Options where
  root_path : String
  sorted : Bool
  skip_hidden : Bool
  max_depth : Nat
  max_file_cnt : Nat
  dir_include : Option (List String)
  dir_exclude : Option (List String)
  file_include : Option (List String)
  file_exclude : Option (List String)
  case_sensitive : Bool
  return_type : ReturnType
deriving DecidableEq, Repr

/-- The basic `DirEntry` struct of lib.rs (`SystemTime` as abstract ticks). -/
structure DirEntry where
  path : String
  is_symlink : Bool
  is_dir : Bool
  is_file : Bool
  st_ctime : Option Nat
  st_mtime : Option Nat
  st_atime : Option Nat
  st_size : Nat
deriving DecidableEq, Repr

/-- The extended `DirEntryExt` struct of lib.rs. -/
structure DirEntryExt where
  path : String
  is_symlink : Bool
  is_dir : Bool
  is_file : Bool
  st_ctime : Option Nat
  st_mtime : Option Nat
  st_atime : Option Nat
  st_size : Nat
  st_blksize : Nat
  st_blocks : Nat
  st_mode : Nat
  st_nlink : Nat
  st_uid : Nat
  st_gid : Nat
  st_ino : Nat
  st_dev : Nat
  st_rdev : Nat
deriving DecidableEq, Repr

/-- The `ScandirResult` enum of lib.rs: one scan result item. -/
inductive ScandirResult where
  | DirEntry (entry : DirEntry)
  | DirEntryExt (entry : DirEntryExt)
  | Error (err : String × String)
deriving DecidableEq, Repr

/-- The `ScandirResults` struct of lib.rs. -/
structure ScandirResults where
  results : List ScandirResult
  errors : ErrorsType
deriving DecidableEq, Repr

/-- `ScandirResults::new` of lib.rs. -/
def ScandirResults.new : ScandirResults :=
  { results := [], errors := [] }

/-- The two `std::io::ErrorKind` values produced by lib.rs, each carrying
the message string the code attaches (`Error::new(kind, msg)`). -/
inductive IOErr where
  | notFound (msg : String)
  | other (msg : String)
deriving DecidableEq, Repr

/-- Model of the filesystem-dependent calls used by `check_and_expand_path`:
`expanduser` (which the code unwraps, so a failing expansion is `none`),
`fs::canonicalize` (an error carries the string `e.to_string()` yields),
and `Path::exists`. -/
structure FileSys where
  expanduser : String → Option String
  canonicalize : String → Except String String
  pathExists : String → Bool

/-- A Rust `Path` argument as seen by the code: `to_str` is its optional
UTF-8 view (`none` for a non-UTF-8 path, on which `to_str().unwrap()`
panics). -/
structure OsPath where
  to_str : Option String

/-- `check_and_expand_path` of lib.rs (the `cfg(unix)` variant, which is the
one containing the two `unwrap` calls). An outer `none` models a panic:
either `to_str().unwrap()` on a non-UTF-8 path or
`expanduser(..).unwrap()` on a failed expansion. Otherwise the expanded
path is canonicalized; a canonicalization error becomes an
`ErrorKind::Other` with the error text, a canonical path that does not
exist becomes an `ErrorKind::NotFound` carrying the original path string,
and an existing canonical path is returned. -/
def check_and_expand_path (fs : FileSys) (p : OsPath) : Option (Except IOErr String) :=
  match p.to_str with
  | none => none
  | some s =>
    match fs.expanduser s with
    | none => none
    | some expanded =>
      match fs.canonicalize expanded with
      | Except.error e => some (Except.error (IOErr.other e))
      | Except.ok canonical =>
        if fs.pathExists canonical then some (Except.ok canonical)
        else some (Except.error (IOErr.notFound s))

/-- The `Scandir` struct of lib.rs. The shared cells are embedded by their
values: `duration` holds the f64 behind `Arc<Mutex<f64>>` (so the
projection `Scandir.duration` is exactly the `duration()` getter), and
`finishedFlag` holds the boolean behind the `finished: Arc<AtomicBool>`
field (renamed because the `finished()` method reads the duration cell,
not this flag). `thr` and `rx` keep only whether a join handle or a
receiver is present. -/
structure Scandir where
  options : Options
  store : Bool
  entries : ScandirResults
  duration : ℚ
  finishedFlag : Bool
  thr : Option Unit
  stop : Bool
  rx : Option Unit
deriving DecidableEq, Repr

/-- `Scandir::new` of lib.rs: validates the root path through
`check_and_expand_path` (the `?` operator propagates its error), then
builds the initial state with the default options, `store.unwrap_or(true)`,
empty entries, duration `0.0`, cleared flags, and no thread or receiver.
The outer `Option` propagates a panic of `check_and_expand_path`. -/
def Scandir.new (fs : FileSys) (root_path : OsPath) (store : Option Bool) :
    Option (Except IOErr Scandir) :=
  match check_and_expand_path fs root_path with
  | none => none
  | some (Except.error e) => some (Except.error e)
  | some (Except.ok root) =>
    some (Except.ok
      { options :=
          { root_path := root
            sorted := false
            skip_hidden := false
            max_depth := 2 ^ 64 - 1
            max_file_cnt := 2 ^ 64 - 1
            dir_include := none
            dir_exclude := none
            file_include := none
            file_exclude := none
            case_sensitive := false
            return_type := ReturnType.Base }
        store := store.getD true
        entries := ScandirResults.new
        duration := 0
        finishedFlag := false
        thr := none
        stop := false
        rx := none })

/-- `Scandir::finished` of lib.rs: `*self.duration.lock().unwrap() > 0.0`. -/
def Scandir.finished (s : Scandir) : Bool :=
  decide (0 < s.duration)

/-- `Scandir::finished2` of lib.rs: `*self.duration.lock().unwrap() != 0.0`. -/
def Scandir.finished2 (s : Scandir) : Bool :=
  decide (s.duration ≠ 0)

/-- Modelled from the spec: src/ contains no Traversal Worker, so the
completion step of spec section 4.2 ("On natural completion or
cancellation: record elapsed wall-clock duration since walk start into a
shared duration value, then set a shared finished signal", with the
strictly-positive guarantee of the same section and the epsilon clamp of
section 9) is modelled here. The smallest duration ever recorded, one
nanosecond in seconds. -/
def MIN_POSITIVE_DURATION : ℚ := 1 / 1000000000

/-- Modelled from the spec: the state update the missing Traversal Worker
performs when a walk completes or is cancelled — record the elapsed
wall-clock time, clamped below by a positive epsilon so that a trivial or
instantaneous scan still stores a strictly positive duration, and set the
finished signal. -/
def Scandir.finishWalk (s : Scandir) (elapsed : ℚ) : Scandir :=
  { s with
    duration := max elapsed MIN_POSITIVE_DURATION
    finishedFlag := true }

/-- Whether a scan result item is an error record (these do not count
toward the `max_file_cnt` bound on reported entries). -/
def ScandirResult.isErr : ScandirResult → Bool
  | ScandirResult.Error _ => true
  | _ => false

/-- Modelled from the spec: src/ contains no Traversal Worker, so the
`max_file_cnt` termination rule of spec section 4.2 is modelled over the
sequence of items the unlimited walk would emit: each item is emitted in
order; after each emitted report (non-error item) the running
reported-count is checked against `max_file_cnt`, and when reached the
walk stops emitting further items. -/
def walkEmit (max_file_cnt : Nat) : List ScandirResult → Nat → List ScandirResult
  | [], _ => []
  | item :: rest, cnt =>
    if item.isErr then
      item :: walkEmit max_file_cnt rest cnt
    else
      item :: (if max_file_cnt ≤ cnt + 1 then []
               else walkEmit max_file_cnt rest (cnt + 1))

/-- The number of reported (non-error) entries in an emitted sequence. -/
def countReports (items : List ScandirResult) : Nat :=
  (items.filter fun item => ! item.isErr).length

/-- A concrete filesystem model used to evaluate the theorems on closed
inputs: expansion fails on "bad", canonicalization fails on "err" with
message "boom", "miss" canonicalizes to a path that does not exist, and
every other path canonicalizes to an existing path under "/root/". -/
def fsEx : FileSys where
  expanduser s := if s = "bad" then none else some s
  canonicalize s :=
    if s = "err" then Except.error "boom"
    else if s = "miss" then Except.ok "/miss"
    else Except.ok ("/root/" ++ s)
  pathExists s := s != "/miss"

/-- A concrete valid path for `fsEx`. -/
def pathEx : OsPath := { to_str := some "a" }

/-- The `Scandir` state `Scandir.new fsEx pathEx none` produces. -/
def scandirEx : Scandir :=
  { options :=
      { root_path := "/root/a"
        sorted := false
        skip_hidden := false
        max_depth := 2 ^ 64 - 1
        max_file_cnt := 2 ^ 64 - 1
        dir_include := none
        dir_exclude := none
        file_include := none
        file_exclude := none
        case_sensitive := false
        return_type := ReturnType.Base }
    store := true
    entries := ScandirResults.new
    duration := 0
    finishedFlag := false
    thr := none
    stop := false
    rx := none }

/-- The same state with `store := false`, produced by passing `some false`. -/
def scandirExNoStore : Scandir :=
  { scandirEx with store := false }

/-- A concrete non-error scan result item. -/
def sampleEntry : ScandirResult :=
  ScandirResult.DirEntry
    { path := "a.txt"
      is_symlink := false
      is_dir := false
      is_file := true
      st_ctime := none
      st_mtime := none
      st_atime := none
      st_size := 0 }

/-- Claim C1: for every `Scandir` state, `finished()` returns true if and
only if the stored duration value is strictly greater than zero. -/
theorem Scandir.finished_iff_duration_pos (s : Scandir) :
    s.finished = true ↔ 0 < s.duration := by
  simp [Scandir.finished]

/-- Claim C2: path validation classifies its outcomes as the claim states:
when expansion succeeds, a canonicalization success whose result exists is
returned as the canonical path; a canonicalization success whose result
does not exist fails with the not-found condition (carrying the original
path string); and any canonicalization failure fails with the generic
other condition (carrying the error text). -/
theorem check_and_expand_path_error_classification (fs : FileSys) (s expanded : String)
    (hexp : fs.expanduser s = some expanded) :
    (∀ canonical, fs.canonicalize expanded = Except.ok canonical →
        fs.pathExists canonical = true →
        check_and_expand_path fs { to_str := some s } = some (Except.ok canonical))
    ∧ (∀ canonical, fs.canonicalize expanded = Except.ok canonical →
        fs.pathExists canonical = false →
        check_and_expand_path fs { to_str := some s }
          = some (Except.error (IOErr.notFound s)))
    ∧ (∀ e, fs.canonicalize expanded = Except.error e →
        check_and_expand_path fs { to_str := some s }
          = some (Except.error (IOErr.other e))) := by
  refine ⟨fun canonical hc hex => ?_, fun canonical hc hex => ?_, fun e hc => ?_⟩
  · simp [check_and_expand_path, hexp, hc, hex]
  · simp [check_and_expand_path, hexp, hc, hex]
  · simp [check_and_expand_path, hexp, hc]

/-- Witness for claim C2 on the concrete filesystem model: "a" succeeds
with its canonical path, "miss" resolves to a nonexistent path and yields
the not-found condition, "err" fails to canonicalize and yields the
generic other condition. -/
theorem check_and_expand_path_error_classification_witness :
    check_and_expand_path fsEx { to_str := some "a" } = some (Except.ok "/root/a")
    ∧ check_and_expand_path fsEx { to_str := some "miss" }
        = some (Except.error (IOErr.notFound "miss"))
    ∧ check_and_expand_path fsEx { to_str := some "err" }
        = some (Except.error (IOErr.other "boom")) :=
  ⟨(check_and_expand_path_error_classification fsEx "a" "a" rfl).1
      "/root/a" rfl (by decide),
   (check_and_expand_path_error_classification fsEx "miss" "miss" rfl).2.1
      "/miss" rfl (by decide),
   (check_and_expand_path_error_classification fsEx "err" "err" rfl).2.2
      "boom" rfl⟩

/-- Claim C3: every state produced by `Scandir::new` has duration exactly
zero and `finished()` false. No function in the source mutates the
duration cell, so both persist until a (missing-from-src) worker would
record a completion. -/
theorem Scandir.new_initial_state (fs : FileSys) (p : OsPath) (store : Option Bool)
    (s : Scandir) (h : Scandir.new fs p store = some (Except.ok s)) :
    s.duration = 0 ∧ s.finished = false := by
  unfold Scandir.new at h
  split at h
  · exact Option.noConfusion h
  · exact Except.noConfusion (Option.some.inj h)
  · obtain rfl := Except.ok.inj (Option.some.inj h)
    exact ⟨rfl, rfl⟩

/-- Witness for claim C3: the state built from the concrete filesystem
model has duration zero and is not finished. -/
theorem Scandir.new_initial_state_witness :
    scandirEx.duration = 0 ∧ scandirEx.finished = false :=
  Scandir.new_initial_state fsEx pathEx none scandirEx rfl

/-- Claim C4: when path validation fails, `Scandir::new` returns exactly
that error: no `Scandir` state is created, hence no worker thread handle
and no channel receiver exist (the scan never begins). -/
theorem Scandir.new_invalid_path_error (fs : FileSys) (p : OsPath)
    (store : Option Bool) (e : IOErr)
    (h : check_and_expand_path fs p = some (Except.error e)) :
    Scandir.new fs p store = some (Except.error e) := by
  simp [Scandir.new, h]

/-- Witness for claim C4: constructing on the nonexistent path "miss"
returns the not-found error and creates no state. -/
theorem Scandir.new_invalid_path_error_witness :
    Scandir.new fsEx { to_str := some "miss" } none
      = some (Except.error (IOErr.notFound "miss")) :=
  Scandir.new_invalid_path_error fsEx { to_str := some "miss" } none
    (IOErr.notFound "miss") rfl

/-- Claim C5: the store flag of a state built by `Scandir::new` is
`store.unwrap_or(true)`: `true` when no flag is supplied, and the supplied
value otherwise. -/
theorem Scandir.new_store_flag (fs : FileSys) (p : OsPath) (store : Option Bool)
    (s : Scandir) (h : Scandir.new fs p store = some (Except.ok s)) :
    s.store = store.getD true := by
  unfold Scandir.new at h
  split at h
  · exact Option.noConfusion h
  · exact Except.noConfusion (Option.some.inj h)
  · obtain rfl := Except.ok.inj (Option.some.inj h)
    rfl

/-- Witness for claim C5: passing no flag yields `store = true`, passing
`some false` yields `store = false`. -/
theorem Scandir.new_store_flag_witness :
    scandirEx.store = true ∧ scandirExNoStore.store = false :=
  ⟨Scandir.new_store_flag fsEx pathEx none scandirEx rfl,
   Scandir.new_store_flag fsEx pathEx (some false) scandirExNoStore rfl⟩

/-- Claim C6: every scan result item is exactly one of the three shapes —
a basic entry, an extended entry, or an error record, the latter carrying
a pair of path string and message string. -/
theorem ScandirResult.shape_trichotomy (r : ScandirResult) :
    (∃ entry, r = ScandirResult.DirEntry entry)
    ∨ (∃ entry, r = ScandirResult.DirEntryExt entry)
    ∨ (∃ pairPathMsg : String × String, r = ScandirResult.Error pairPathMsg) := by
  cases r with
  | DirEntry entry => exact Or.inl ⟨entry, rfl⟩
  | DirEntryExt entry => exact Or.inr (Or.inl ⟨entry, rfl⟩)
  | Error err => exact Or.inr (Or.inr ⟨err, rfl⟩)

/-- Claim C7 (spec-modelled, the Traversal Worker is not in src/): the
duration recorded when a walk completes or is cancelled is strictly
positive, even for a trivial or instantaneous scan (elapsed time zero). -/
theorem Scandir.finishWalk_duration_pos (s : Scandir) (elapsed : ℚ) :
    0 < (s.finishWalk elapsed).duration := by
  simp only [Scandir.finishWalk]
  exact lt_max_of_lt_right (by norm_num [MIN_POSITIVE_DURATION])

/-- Helper for claim C8: while the running reported-count is still below
the bound, the walk adds at most the remaining allowance of reports. -/
theorem walkEmit_count_le (items : List ScandirResult) :
    ∀ max_file_cnt cnt : Nat, cnt < max_file_cnt →
      countReports (walkEmit max_file_cnt items cnt) + cnt ≤ max_file_cnt := by
  induction items with
  | nil =>
    intro n cnt h
    simp only [walkEmit, countReports, List.filter_nil, List.length_nil]
    omega
  | cons item rest ih =>
    intro n cnt h
    by_cases he : item.isErr
    · simpa [walkEmit, countReports, List.filter_cons, he] using ih n cnt h
    · by_cases hstop : n ≤ cnt + 1
      · simp [walkEmit, countReports, List.filter_cons, he, hstop]
        omega
      · have ihh := ih n (cnt + 1) (by omega)
        simp [walkEmit, countReports, List.filter_cons, he, hstop] at ihh ⊢
        omega

/-- Claim C8 as amended: for every `max_file_cnt = n` with `n ≥ 1`, the
number of reported (non-error) entries the walk emits never exceeds `n`
(on reaching `n` it stops emitting further items). For `n = 0` the rule
of spec section 4.2 checks the count only after a report has already been
emitted, so one entry escapes the bound; see the counterexample. -/
theorem walkEmit_reported_le_max_file_cnt (max_file_cnt : Nat)
    (items : List ScandirResult) (h : 1 ≤ max_file_cnt) :
    countReports (walkEmit max_file_cnt items 0) ≤ max_file_cnt := by
  have := walkEmit_count_le items max_file_cnt 0 h
  omega

/-- Witness for claim C8: with a bound of one and two candidate entries,
exactly the first is reported. -/
theorem walkEmit_reported_le_max_file_cnt_witness :
    1 ≤ 1 ∧ countReports (walkEmit 1 [sampleEntry, sampleEntry] 0) ≤ 1 :=
  ⟨by decide,
   walkEmit_reported_le_max_file_cnt 1 [sampleEntry, sampleEntry] (by decide)⟩

/-- Counterexample for claim C8 as stated: with `max_file_cnt = 0` and one
candidate entry, the spec walk (which checks the count only after each
emitted report) still emits that entry, so the reported count exceeds the
bound. -/
theorem walkEmit_max_file_cnt_zero_cex :
    ¬ countReports (walkEmit 0 [sampleEntry] 0) ≤ 0 := by
  decide

/-- Claim C9: on every state whose stored duration is nonnegative,
`finished()` and `finished2()` agree (strictly-greater-than-zero equals
not-equal-to-zero there). -/
theorem Scandir.finished_eq_finished2 (s : Scandir) (h : 0 ≤ s.duration) :
    s.finished = s.finished2 := by
  simp only [Scandir.finished, Scandir.finished2, decide_eq_decide]
  rw [h.lt_iff_ne]
  exact ne_comm

/-- Witness for claim C9: on the fresh state both predicates agree and are
false. -/
theorem Scandir.finished_eq_finished2_witness :
    0 ≤ scandirEx.duration
    ∧ scandirEx.finished = scandirEx.finished2
    ∧ scandirEx.finished = false :=
  ⟨by decide, Scandir.finished_eq_finished2 scandirEx (by decide), by decide⟩

/-- Claim C10: on Unix, `check_and_expand_path` panics (modelled as the
outer `none`) rather than returning through its `Result` error channel
both when the input path is not valid UTF-8 and when home-directory
expansion fails. -/
theorem check_and_expand_path_panics (fs : FileSys) :
    (check_and_expand_path fs { to_str := none } = none)
    ∧ (∀ s, fs.expanduser s = none →
        check_and_expand_path fs { to_str := some s } = none) := by
  constructor
  · rfl
  · intro s he
    simp [check_and_expand_path, he]

/-- Witness for claim C10: a non-UTF-8 path and the path "bad" (whose
expansion fails in the concrete model) both panic instead of returning an
error value. -/
theorem check_and_expand_path_panics_witness :
    check_and_expand_path fsEx { to_str := none } = none
    ∧ check_and_expand_path fsEx { to_str := some "bad" } = none :=
  ⟨(check_and_expand_path_panics fsEx).1,
   (check_and_expand_path_panics fsEx).2 "bad" (by decide)⟩
